import Mathlib

/-!
Shallow embedding of the Task Management API's authentication and
authorization core, translated from the TypeScript source:

* `src/backend/src/controllers/authController.ts` (AuthService, TaskService)
* `src/backend/src/middleware/auth.ts` (authenticate, requireRole)
* `src/backend/src/middleware/validate.ts` and the Joi schemas
  (`registerSchema`, `paginationSchema`)

Stateful Prisma calls are modelled by explicit state passing over a list
of records; mutating service operations return the new store together
with their `Except` result. Errors are modelled after `AppError` with
string error codes matching the `errorCodes` constants used by the
source (`CONFLICT`, `AUTH_FAILED`, `INVALID_TOKEN`, `NOT_FOUND`,
`VALIDATION_ERROR`, `FORBIDDEN`).
-/

namespace TaskApi

/-- Role enum from the Prisma schema: `USER` or `ADMIN`. -/
inductive Role where
  | USER
  | ADMIN
deriving DecidableEq, Repr

/-- Task status enum from the Prisma schema. -/
inductive TaskStatus where
  | PENDING
  | IN_PROGRESS
  | COMPLETED
deriving DecidableEq, Repr

/-- `AppError(statusCode, code, message, details)` from `utils/errors`.
The `code` field holds the `errorCodes` string constant (the tests match
on strings such as "CONFLICT" and "VALIDATION_ERROR"); `details` is the
list of failing-field names produced by the validation middleware, empty
elsewhere (the source uses `details || null`). -/
structure AppError where
  statusCode : Nat
  code : String
  message : String
  details : List String := []
deriving DecidableEq, Repr

/-- A persisted `User` row: id, unique email, bcrypt password hash, role. -/
structure User where
  id : String
  email : String
  password : String
  role : Role
deriving DecidableEq, Repr

/-- The user table of the credential store. -/
abbrev UserDb := List User

/-- A persisted `Task` row; `createdAt` is a timestamp used by the
`orderBy: createdAt desc` list query. -/
structure Task where
  id : String
  title : String
  description : Option String
  status : TaskStatus
  userId : String
  createdAt : Nat
deriving DecidableEq, Repr

/-- The task table. -/
abbrev TaskDb := List Task

/-- Interface model of `bcrypt.hash(plaintext, 10)`: a self-contained
salted hash. The Hasher contract is that `verify(p, hash(p))` holds and
verification against a hash of a different password fails; the model
realises it with an injective tagging function. -/
def bcryptHash (plaintext : String) : String :=
  "$2b$10$" ++ plaintext

/-- Interface model of `bcrypt.compare(plaintext, hash)`: recompute and
compare, returning a Bool, never throwing on mismatch. -/
def bcryptCompare (plaintext hash : String) : Bool :=
  hash == bcryptHash plaintext

/-- JWT claims as in the source's `TokenPayload`: subject id, role,
issued-at and expiry (seconds). -/
structure JwtClaims where
  sub : String
  role : Role
  iat : Nat
  exp : Nat
deriving DecidableEq, Repr

/-- Interface model of a token string produced by `jsonwebtoken`: either
a well-formed token signed with some secret, or a string that does not
decode to a signed payload at all. -/
inductive TokenString where
  | signed (claims : JwtClaims) (secret : String)
  | malformed (raw : String)
deriving DecidableEq, Repr

/-- Interface model of `jwt.sign({sub, role}, secret, {expiresIn: ttl})`:
embeds `iat = now` and `exp = now + ttl` and signs with `secret`. -/
def jwtSign (sub : String) (role : Role) (secret : String) (now ttl : Nat) :
    TokenString :=
  .signed { sub := sub, role := role, iat := now, exp := now + ttl } secret

/-- Interface model of `jwt.verify(token, secret)` at clock time `now`:
yields the claims when the token is well formed, signed with the same
secret, and not expired (jsonwebtoken rejects once `now >= exp`);
otherwise yields `none` (the library throws). -/
def jwtVerify (token : TokenString) (secret : String) (now : Nat) :
    Option JwtClaims :=
  match token with
  | .malformed _ => none
  | .signed claims s =>
      if s = secret ∧ now < claims.exp then some claims else none

/-- `RegisterDTO` from `authService.ts`; `role` is optional. -/
structure RegisterDTO where
  email : String
  password : String
  role : Option Role := none
deriving DecidableEq, Repr

/-- The public identity summary returned by login: `{id, email, role}`,
and nothing else — in particular no password hash field exists. -/
structure PublicUser where
  id : String
  email : String
  role : Role
deriving DecidableEq, Repr

/-- Successful login result `{token, user}`. -/
structure LoginResult where
  token : TokenString
  user : PublicUser
deriving DecidableEq, Repr

/-- `prisma.user.findUnique({where: {email}})`. -/
def findUserByEmail (db : UserDb) (email : String) : Option User :=
  db.find? (fun u => u.email == email)

namespace AuthService

/-- `AuthService.register(data)`: look up by email; conflict if found;
otherwise hash the password and insert a new user whose role is
`data.role || Role.USER`, returning the generated id (`freshId` models
the id generated by the store). Returns the updated store together with
the result; on failure the store is returned unchanged. -/
def register (db : UserDb) (freshId : String) (data : RegisterDTO) :
    UserDb × Except AppError String :=
  match findUserByEmail db data.email with
  | some _ => (db, .error ⟨409, "CONFLICT", "User already exists", []⟩)
  | none =>
      let hashedPassword := bcryptHash data.password
      let user : User :=
        { id := freshId
          email := data.email
          password := hashedPassword
          role := data.role.getD Role.USER }
      (db ++ [user], .ok user.id)

/-- `AuthService.login(data)`: look up by email, fail `AUTH_FAILED` if
absent; compare the password hash, fail `AUTH_FAILED` on mismatch; on
success sign a token over `{sub: user.id, role: user.role}` with the
configured TTL and return it with the public user summary. -/
def login (db : UserDb) (secret : String) (ttl now : Nat)
    (email password : String) : Except AppError LoginResult :=
  match findUserByEmail db email with
  | none => .error ⟨401, "AUTH_FAILED", "Invalid credentials", []⟩
  | some user =>
      if bcryptCompare password user.password then
        .ok { token := jwtSign user.id user.role secret now ttl
              user := { id := user.id, email := user.email, role := user.role } }
      else
        .error ⟨401, "AUTH_FAILED", "Invalid credentials", []⟩

/-- `AuthService.verifyToken(token)`: delegate to `jwt.verify`; any
failure is rethrown as the single `AppError(401, INVALID_TOKEN,
"Invalid or expired token")`. -/
def verifyToken (secret : String) (now : Nat) (token : TokenString) :
    Except AppError JwtClaims :=
  match jwtVerify token secret now with
  | some payload => .ok payload
  | none => .error ⟨401, "INVALID_TOKEN", "Invalid or expired token", []⟩

end AuthService

/-- The `{id, role}` context attached to the request by `authenticate`. -/
structure AuthContext where
  id : String
  role : Role
deriving DecidableEq, Repr

/-- Character-list model of `authHeader.startsWith("Bearer ")`. -/
def isBearerHeader (h : String) : Bool :=
  "Bearer ".data.isPrefixOf h.data

/-- Character-list model of `authHeader.substring(7)`. -/
def bearerToken (h : String) : String :=
  String.mk (h.data.drop 7)

/-- `authenticate` middleware: reject with `INVALID_TOKEN` when the
`Authorization` header is absent or does not start with "Bearer ";
otherwise strip the 7-character prefix and delegate to the token
verifier (`authService.verifyToken` in the source, passed here as the
`verify` argument), attaching `{id: payload.sub, role: payload.role}`
on success and propagating the error on failure. -/
def authenticate (verify : String → Except AppError JwtClaims)
    (authHeader : Option String) : Except AppError AuthContext :=
  match authHeader with
  | none => .error ⟨401, "INVALID_TOKEN", "No token provided", []⟩
  | some h =>
      if isBearerHeader h then
        match verify (bearerToken h) with
        | .ok payload => .ok { id := payload.sub, role := payload.role }
        | .error e => .error e
      else
        .error ⟨401, "INVALID_TOKEN", "No token provided", []⟩

/-- `requireRole(...roles)` middleware: with no authenticated context it
throws `AppError(401, INVALID_TOKEN, "Not authenticated")`; with a
context whose role is not in the allow-list it throws `AppError(403,
FORBIDDEN, "Insufficient permissions")`; otherwise it calls `next()`. -/
def requireRole (roles : List Role) (user : Option AuthContext) :
    Except AppError Unit :=
  match user with
  | none => .error ⟨401, "INVALID_TOKEN", "Not authenticated", []⟩
  | some ctx =>
      if roles.contains ctx.role then .ok ()
      else .error ⟨403, "FORBIDDEN", "Insufficient permissions", []⟩

/-- Pagination parameters after validation (`PaginationParams`). -/
structure PaginationParams where
  page : Int
  limit : Int
deriving DecidableEq, Repr

/-- A pagination query as it reaches the Joi schema after the validation
middleware's string-to-number conversion: each of `page` and `limit` is
either absent or an integer. -/
structure PaginationQuery where
  page : Option Int := none
  limit : Option Int := none
deriving DecidableEq, Repr

/-- `paginationSchema` from `utils/validation.ts` run by the `validate`
middleware (`abortEarly: false`): `page` is an optional integer with
`min(1)` and default 1; `limit` is an optional integer with `min(1)`,
`max(100)` and default 10. All failing fields are collected and reported
as one `AppError(400, VALIDATION_ERROR, "Validation failed", details)`. -/
def validatePagination (q : PaginationQuery) :
    Except AppError PaginationParams :=
  let pageErrs : List String :=
    match q.page with
    | none => []
    | some p => if p < 1 then ["page"] else []
  let limitErrs : List String :=
    match q.limit with
    | none => []
    | some l => if l < 1 ∨ 100 < l then ["limit"] else []
  match pageErrs ++ limitErrs with
  | [] => .ok { page := q.page.getD 1, limit := q.limit.getD 10 }
  | errs => .error ⟨400, "VALIDATION_ERROR", "Validation failed", errs⟩

/-- `UpdateTaskDTO`: all fields optional; a present `description` may
itself be null. -/
structure UpdateTaskDTO where
  title : Option String := none
  description : Option (Option String) := none
  status : Option TaskStatus := none
deriving DecidableEq, Repr

/-- Effect of `prisma.task.update({where: {id}, data})` on one row:
fields present in `data` overwrite, absent fields are kept. -/
def applyUpdate (t : Task) (d : UpdateTaskDTO) : Task :=
  { t with
    title := d.title.getD t.title
    description := d.description.getD t.description
    status := d.status.getD t.status }

/-- `prisma.task.findFirst({where: {id: taskId, userId}})`. -/
def taskFindFirst (db : TaskDb) (taskId userId : String) : Option Task :=
  db.find? (fun t => t.id == taskId && t.userId == userId)

/-- Paginated list result `{data, pagination}`. -/
structure PaginatedTasks where
  data : List Task
  page : Int
  limit : Int
  total : Nat
deriving DecidableEq, Repr

namespace TaskService

/-- `TaskService.getTaskById(taskId, userId)`: `findFirst` scoped to the
requesting user's id; `NOT_FOUND` when no row matches both. -/
def getTaskById (db : TaskDb) (taskId userId : String) :
    Except AppError Task :=
  match taskFindFirst db taskId userId with
  | some task => .ok task
  | none => .error ⟨404, "NOT_FOUND", "Task not found", []⟩

/-- `TaskService.getTasks(userId, {page, limit})`: `findMany` filtered to
`{userId}`, ordered by `createdAt` descending, with `skip = (page-1)*limit`
and `take = limit`; `total` counts the user's tasks. -/
def getTasks (db : TaskDb) (userId : String) (params : PaginationParams) :
    PaginatedTasks :=
  let owned := db.filter (fun t => t.userId == userId)
  let ordered := owned.insertionSort (fun a b => b.createdAt ≤ a.createdAt)
  let skip := ((params.page - 1) * params.limit).toNat
  { data := (ordered.drop skip).take params.limit.toNat
    page := params.page
    limit := params.limit
    total := owned.length }

/-- `TaskService.updateTask(taskId, userId, data)`: fetch through
`getTaskById` (ownership-scoped), then update the row by id. The store
is returned unchanged on failure. -/
def updateTask (db : TaskDb) (taskId userId : String) (d : UpdateTaskDTO) :
    TaskDb × Except AppError Task :=
  match getTaskById db taskId userId with
  | .error e => (db, .error e)
  | .ok task =>
      let updated := applyUpdate task d
      (db.map (fun t => if t.id == task.id then updated else t), .ok updated)

/-- `TaskService.deleteTask(taskId, userId)`: fetch through
`getTaskById` (ownership-scoped), then delete the row by id. The store
is returned unchanged on failure. -/
def deleteTask (db : TaskDb) (taskId userId : String) :
    TaskDb × Except AppError Unit :=
  match getTaskById db taskId userId with
  | .error e => (db, .error e)
  | .ok task => (db.filter (fun t => t.id != task.id), .ok ())

end TaskService

/-! Theorems about the embedded operations. -/

/-- C1: on an initially empty store, Register(email, password) with the
default role followed by Login(email, password) succeeds, and verifying
the returned token yields exactly the registered identity's id as
subject and role USER. -/
theorem register_then_login_roundtrip
    (email password freshId secret : String) (ttl now : Nat) (httl : 0 < ttl) :
    (AuthService.register [] freshId ⟨email, password, none⟩).2 = .ok freshId ∧
    ∃ res : LoginResult,
      AuthService.login (AuthService.register [] freshId ⟨email, password, none⟩).1
        secret ttl now email password = .ok res ∧
      ∃ p : JwtClaims,
        AuthService.verifyToken secret now res.token = .ok p ∧
        p.sub = freshId ∧ p.role = Role.USER := by
  have hlt : now < now + ttl := Nat.lt_add_of_pos_right httl
  refine ⟨rfl, ⟨⟨jwtSign freshId Role.USER secret now ttl,
      ⟨freshId, email, Role.USER⟩⟩, ?_,
      ⟨⟨freshId, Role.USER, now, now + ttl⟩, ?_, rfl, rfl⟩⟩⟩
  · simp [AuthService.register, AuthService.login, findUserByEmail,
      bcryptCompare, jwtSign]
  · simp [AuthService.verifyToken, jwtVerify, jwtSign, hlt]

/-- C1 witness at concrete inputs. -/
theorem register_then_login_roundtrip_witness :
    (0 : Nat) < 900 ∧
    ((AuthService.register [] "id1" ⟨"a@x.com", "Secret12", none⟩).2 = .ok "id1" ∧
     ∃ res : LoginResult,
       AuthService.login (AuthService.register [] "id1" ⟨"a@x.com", "Secret12", none⟩).1
         "k" 900 1000 "a@x.com" "Secret12" = .ok res ∧
       ∃ p : JwtClaims,
         AuthService.verifyToken "k" 1000 res.token = .ok p ∧
         p.sub = "id1" ∧ p.role = Role.USER) :=
  ⟨by decide,
   register_then_login_roundtrip "a@x.com" "Secret12" "id1" "k" 900 1000 (by decide)⟩

/-- C2: Token Service verification fails exactly when the token is
malformed, the signature does not match, or `now >= exp`; every failure
is the single uniform `INVALID_TOKEN` error; a token issued with TTL
`ttl` at `now0` verifies at any `now < now0 + ttl` and fails at any
`now >= now0 + ttl`, and on success returns the embedded claims. -/
theorem verifyToken_spec (secret s raw sub : String) (c : JwtClaims)
    (role : Role) (ttl now0 now : Nat) :
    (AuthService.verifyToken secret now (.malformed raw) =
      .error ⟨401, "INVALID_TOKEN", "Invalid or expired token", []⟩) ∧
    (AuthService.verifyToken secret now (.signed c s) = .ok c ↔
      s = secret ∧ now < c.exp) ∧
    (∀ e, AuthService.verifyToken secret now (.signed c s) = .error e →
      e = ⟨401, "INVALID_TOKEN", "Invalid or expired token", []⟩) ∧
    (now < now0 + ttl →
      AuthService.verifyToken secret now (jwtSign sub role secret now0 ttl) =
        .ok ⟨sub, role, now0, now0 + ttl⟩) ∧
    (now0 + ttl ≤ now →
      AuthService.verifyToken secret now (jwtSign sub role secret now0 ttl) =
        .error ⟨401, "INVALID_TOKEN", "Invalid or expired token", []⟩) := by
  refine ⟨rfl, ?_, ?_, ?_, ?_⟩
  · by_cases h : s = secret ∧ now < c.exp
    · simp [AuthService.verifyToken, jwtVerify, h]
    · simp [AuthService.verifyToken, jwtVerify, h]
  · intro e he
    by_cases h : s = secret ∧ now < c.exp
    · simp [AuthService.verifyToken, jwtVerify, h] at he
    · simp [AuthService.verifyToken, jwtVerify, h] at he
      exact he.symm
  · intro h
    simp [AuthService.verifyToken, jwtVerify, jwtSign, h]
  · intro h
    simp [AuthService.verifyToken, jwtVerify, jwtSign, Nat.not_lt.mpr h]

/-- C2 witness: a token with TTL 11 issued at 0 verifies at time 10 and
is rejected at time 11. -/
theorem verifyToken_spec_witness :
    (10 : Nat) < 0 + 11 ∧ (0 : Nat) + 11 ≤ 11 ∧
    AuthService.verifyToken "k" 10 (jwtSign "u" Role.USER "k" 0 11) =
      .ok ⟨"u", Role.USER, 0, 11⟩ ∧
    AuthService.verifyToken "k" 11 (jwtSign "u" Role.USER "k" 0 11) =
      .error ⟨401, "INVALID_TOKEN", "Invalid or expired token", []⟩ :=
  ⟨by decide, by decide,
   (verifyToken_spec "k" "k" "" "u" ⟨"u", Role.USER, 0, 11⟩
      Role.USER 11 0 10).2.2.2.1 (by decide),
   (verifyToken_spec "k" "k" "" "u" ⟨"u", Role.USER, 0, 11⟩
      Role.USER 11 0 11).2.2.2.2 (by decide)⟩

/-- C3: registering an email that already has an Identity fails with
Conflict and returns the store unchanged — the existing Identity keeps
its hash and role and no new Identity is created. -/
theorem register_conflict_no_write (db : UserDb) (freshId : String)
    (data : RegisterDTO) (u : User) (hu : u ∈ db) (he : u.email = data.email) :
    AuthService.register db freshId data =
      (db, .error ⟨409, "CONFLICT", "User already exists", []⟩) := by
  have hsome : (findUserByEmail db data.email).isSome := by
    rw [findUserByEmail, List.find?_isSome]
    exact ⟨u, hu, by simp [he]⟩
  obtain ⟨v, hv⟩ := Option.isSome_iff_exists.mp hsome
  simp [AuthService.register, hv]

/-- C3 witness: re-registering a present email at a concrete store. -/
theorem register_conflict_no_write_witness :
    (⟨"u1", "a@x.com", "h", Role.USER⟩ : User) ∈
      ([⟨"u1", "a@x.com", "h", Role.USER⟩] : UserDb) ∧
    AuthService.register [⟨"u1", "a@x.com", "h", Role.USER⟩] "u2"
        ⟨"a@x.com", "Other123", none⟩ =
      ([⟨"u1", "a@x.com", "h", Role.USER⟩],
        .error ⟨409, "CONFLICT", "User already exists", []⟩) :=
  ⟨by decide,
   register_conflict_no_write [⟨"u1", "a@x.com", "h", Role.USER⟩] "u2"
     ⟨"a@x.com", "Other123", none⟩ ⟨"u1", "a@x.com", "h", Role.USER⟩
     (by decide) rfl⟩

/-- C4: Login with an unknown email and Login with a known email but a
failing password comparison produce the identical AUTH_FAILED error, so
the two causes are indistinguishable from the result. -/
theorem login_auth_failed_uniform (db : UserDb) (secret : String)
    (ttl now : Nat) (email password : String) :
    (findUserByEmail db email = none →
      AuthService.login db secret ttl now email password =
        .error ⟨401, "AUTH_FAILED", "Invalid credentials", []⟩) ∧
    (∀ u, findUserByEmail db email = some u →
      bcryptCompare password u.password = false →
      AuthService.login db secret ttl now email password =
        .error ⟨401, "AUTH_FAILED", "Invalid credentials", []⟩) := by
  constructor
  · intro h
    simp [AuthService.login, h]
  · intro u h hc
    simp [AuthService.login, h, hc]

/-- C4 witness: both failure causes on a concrete store yield the same
error value. -/
theorem login_auth_failed_uniform_witness :
    AuthService.login [⟨"u1", "a@x.com", bcryptHash "Right123", Role.USER⟩]
        "k" 900 0 "missing@x.com" "pw" =
      .error ⟨401, "AUTH_FAILED", "Invalid credentials", []⟩ ∧
    AuthService.login [⟨"u1", "a@x.com", bcryptHash "Right123", Role.USER⟩]
        "k" 900 0 "a@x.com" "Wrong123" =
      .error ⟨401, "AUTH_FAILED", "Invalid credentials", []⟩ :=
  ⟨(login_auth_failed_uniform [⟨"u1", "a@x.com", bcryptHash "Right123", Role.USER⟩]
      "k" 900 0 "missing@x.com" "pw").1 (by decide),
   (login_auth_failed_uniform [⟨"u1", "a@x.com", bcryptHash "Right123", Role.USER⟩]
      "k" 900 0 "a@x.com" "Wrong123").2
     ⟨"u1", "a@x.com", bcryptHash "Right123", Role.USER⟩ (by decide) (by decide)⟩

/-- C5 counterexample: with no authenticated context present,
`requireRole([ADMIN])` fails with the error code INVALID_TOKEN (HTTP
401), which is not a distinct UNAUTHENTICATED error kind, contrary to
the claim. -/
theorem requireRole_no_context_not_unauthenticated :
    requireRole [Role.ADMIN] none =
      .error ⟨401, "INVALID_TOKEN", "Not authenticated", []⟩ ∧
    "INVALID_TOKEN" ≠ "UNAUTHENTICATED" :=
  ⟨rfl, by decide⟩

/-- C5 (amended): `requireRole(allowed)` succeeds when the context role
is in the allow-list, fails with Forbidden (403) when an authenticated
context is present whose role is not allowed, and fails with the
InvalidToken error kind (401, message "Not authenticated") when no
authenticated context is present. -/
theorem requireRole_spec (roles : List Role) (ctx : AuthContext) :
    (ctx.role ∈ roles → requireRole roles (some ctx) = .ok ()) ∧
    (ctx.role ∉ roles → requireRole roles (some ctx) =
      .error ⟨403, "FORBIDDEN", "Insufficient permissions", []⟩) ∧
    requireRole roles none =
      .error ⟨401, "INVALID_TOKEN", "Not authenticated", []⟩ := by
  refine ⟨?_, ?_, rfl⟩
  · intro h
    simp [requireRole, h]
  · intro h
    simp [requireRole, h]

/-- C5 witness: `requireRole([ADMIN])` allows an ADMIN context and
denies a USER context with FORBIDDEN. -/
theorem requireRole_spec_witness :
    requireRole [Role.ADMIN] (some ⟨"u1", Role.ADMIN⟩) = .ok () ∧
    requireRole [Role.ADMIN] (some ⟨"u2", Role.USER⟩) =
      .error ⟨403, "FORBIDDEN", "Insufficient permissions", []⟩ :=
  ⟨(requireRole_spec [Role.ADMIN] ⟨"u1", Role.ADMIN⟩).1 (by decide),
   (requireRole_spec [Role.ADMIN] ⟨"u2", Role.USER⟩).2.1 (by decide)⟩

/-- C6: when the Authorization header is missing or not of bearer form,
`authenticate` fails with INVALID_TOKEN for every possible verifier
(so Token Service verify is never consulted) and attaches no identity
(the result is the error, not a context). -/
theorem authenticate_rejects_malformed_header
    (verify : String → Except AppError JwtClaims) (h : Option String)
    (hbad : h = none ∨ ∀ s, h = some s → isBearerHeader s = false) :
    authenticate verify h =
      .error ⟨401, "INVALID_TOKEN", "No token provided", []⟩ := by
  rcases hbad with rfl | hb
  · rfl
  · cases h with
    | none => rfl
    | some s => simp [authenticate, hb s rfl]

/-- C6 witness: a non-bearer header is rejected even under a verifier
that accepts everything. -/
theorem authenticate_rejects_malformed_header_witness :
    ((some "Token abc" : Option String) = none ∨
      ∀ s, (some "Token abc" : Option String) = some s →
        isBearerHeader s = false) ∧
    authenticate (fun _ => .ok ⟨"u", Role.ADMIN, 0, 99⟩) (some "Token abc") =
      .error ⟨401, "INVALID_TOKEN", "No token provided", []⟩ :=
  ⟨Or.inr (fun s hs => by cases hs; decide),
   authenticate_rejects_malformed_header _ _
     (Or.inr (fun s hs => by cases hs; decide))⟩

/-- C7: a successful Login returns exactly the issued token together
with the public identity summary `{id, email, role}` of the stored user
— the stored password hash appears nowhere in the result. -/
theorem login_success_public_summary (db : UserDb) (secret : String)
    (ttl now : Nat) (email password : String) (u : User)
    (hu : findUserByEmail db email = some u)
    (hpw : bcryptCompare password u.password = true) :
    AuthService.login db secret ttl now email password =
      .ok { token := jwtSign u.id u.role secret now ttl
            user := { id := u.id, email := u.email, role := u.role } } := by
  simp [AuthService.login, hu, hpw]

/-- C7 witness: concrete successful login yields token plus the
three-field public summary. -/
theorem login_success_public_summary_witness :
    findUserByEmail [⟨"u1", "a@x.com", bcryptHash "Right123", Role.USER⟩]
      "a@x.com" = some ⟨"u1", "a@x.com", bcryptHash "Right123", Role.USER⟩ ∧
    bcryptCompare "Right123" (bcryptHash "Right123") = true ∧
    AuthService.login [⟨"u1", "a@x.com", bcryptHash "Right123", Role.USER⟩]
        "k" 900 0 "a@x.com" "Right123" =
      .ok { token := jwtSign "u1" Role.USER "k" 0 900
            user := { id := "u1", email := "a@x.com", role := Role.USER } } :=
  ⟨by decide, by decide,
   login_success_public_summary
     [⟨"u1", "a@x.com", bcryptHash "Right123", Role.USER⟩] "k" 900 0
     "a@x.com" "Right123" ⟨"u1", "a@x.com", bcryptHash "Right123", Role.USER⟩
     (by decide) (by decide)⟩

/-- C8: when the email is free, Register stores the caller-supplied role
as-is (an ADMIN request creates an ADMIN identity with no further gate),
and stores role USER when the role is omitted. -/
theorem register_trusts_caller_role (db : UserDb) (freshId : String)
    (data : RegisterDTO) (hfree : findUserByEmail db data.email = none) :
    (AuthService.register db freshId data).2 = .ok freshId ∧
    (∀ r, data.role = some r →
      (AuthService.register db freshId data).1 =
        db ++ [⟨freshId, data.email, bcryptHash data.password, r⟩]) ∧
    (data.role = none →
      (AuthService.register db freshId data).1 =
        db ++ [⟨freshId, data.email, bcryptHash data.password, Role.USER⟩]) := by
  refine ⟨?_, ?_, ?_⟩
  · simp [AuthService.register, hfree]
  · intro r hr
    simp [AuthService.register, hfree, hr]
  · intro hr
    simp [AuthService.register, hfree, hr]

/-- C8 witness: registering with role ADMIN on an empty store creates an
ADMIN identity. -/
theorem register_trusts_caller_role_witness :
    findUserByEmail [] "b@x.com" = none ∧
    (AuthService.register [] "id9" ⟨"b@x.com", "Passw0rd", some Role.ADMIN⟩).1 =
      [⟨"id9", "b@x.com", bcryptHash "Passw0rd", Role.ADMIN⟩] :=
  ⟨rfl,
   ((register_trusts_caller_role [] "id9" ⟨"b@x.com", "Passw0rd", some Role.ADMIN⟩
      rfl).2.1 Role.ADMIN rfl).trans (by decide)⟩

/-- C9: when a task belongs to a different user and task ids are unique,
the per-user getTaskById, updateTask and deleteTask all fail with
NOT_FOUND and leave the store unchanged, and getTasks returns only tasks
owned by the requesting user. -/
theorem task_ownership_isolation (db : TaskDb) (t : Task) (uid : String)
    (params : PaginationParams) (d : UpdateTaskDTO)
    (hnodup : (db.map Task.id).Nodup) (ht : t ∈ db) (hne : t.userId ≠ uid) :
    TaskService.getTaskById db t.id uid =
      .error ⟨404, "NOT_FOUND", "Task not found", []⟩ ∧
    TaskService.updateTask db t.id uid d =
      (db, .error ⟨404, "NOT_FOUND", "Task not found", []⟩) ∧
    TaskService.deleteTask db t.id uid =
      (db, .error ⟨404, "NOT_FOUND", "Task not found", []⟩) ∧
    ∀ x ∈ (TaskService.getTasks db uid params).data, x.userId = uid := by
  have hnone : taskFindFirst db t.id uid = none := by
    rw [taskFindFirst, List.find?_eq_none]
    intro x hx hpx
    simp only [Bool.and_eq_true, beq_iff_eq] at hpx
    obtain ⟨hid, huid⟩ := hpx
    have hxt : x = t := List.inj_on_of_nodup_map hnodup hx ht hid
    exact hne (hxt ▸ huid)
  have hget : TaskService.getTaskById db t.id uid =
      .error ⟨404, "NOT_FOUND", "Task not found", []⟩ := by
    simp [TaskService.getTaskById, hnone]
  refine ⟨hget, ?_, ?_, ?_⟩
  · simp [TaskService.updateTask, hget]
  · simp [TaskService.deleteTask, hget]
  · intro x hx
    have hx1 : x ∈ (((db.filter (fun tk => tk.userId == uid)).insertionSort
        (fun a b => b.createdAt ≤ a.createdAt)).drop
          ((params.page - 1) * params.limit).toNat).take params.limit.toNat := hx
    have hx2 : x ∈ (db.filter (fun tk => tk.userId == uid)).insertionSort
        (fun a b => b.createdAt ≤ a.createdAt) :=
      List.mem_of_mem_drop (List.mem_of_mem_take hx1)
    have hx3 : x ∈ db.filter (fun tk => tk.userId == uid) :=
      (List.perm_insertionSort _ _).mem_iff.mp hx2
    have hx4 := (List.mem_filter.mp hx3).2
    simpa using hx4

/-- C9 witness: on a store holding only another user's task, all three
per-user operations fail with NOT_FOUND, the store is unchanged, and the
user's task list is empty. -/
theorem task_ownership_isolation_witness :
    TaskService.getTaskById [⟨"t1", "Title", none, TaskStatus.PENDING, "u2", 5⟩]
        "t1" "u1" = .error ⟨404, "NOT_FOUND", "Task not found", []⟩ ∧
    TaskService.updateTask [⟨"t1", "Title", none, TaskStatus.PENDING, "u2", 5⟩]
        "t1" "u1" ⟨some "New", none, none⟩ =
      ([⟨"t1", "Title", none, TaskStatus.PENDING, "u2", 5⟩],
        .error ⟨404, "NOT_FOUND", "Task not found", []⟩) ∧
    TaskService.deleteTask [⟨"t1", "Title", none, TaskStatus.PENDING, "u2", 5⟩]
        "t1" "u1" =
      ([⟨"t1", "Title", none, TaskStatus.PENDING, "u2", 5⟩],
        .error ⟨404, "NOT_FOUND", "Task not found", []⟩) :=
  ⟨(task_ownership_isolation [⟨"t1", "Title", none, TaskStatus.PENDING, "u2", 5⟩]
      ⟨"t1", "Title", none, TaskStatus.PENDING, "u2", 5⟩ "u1" ⟨1, 10⟩
      ⟨some "New", none, none⟩ (by decide) (by decide) (by decide)).1,
   (task_ownership_isolation [⟨"t1", "Title", none, TaskStatus.PENDING, "u2", 5⟩]
      ⟨"t1", "Title", none, TaskStatus.PENDING, "u2", 5⟩ "u1" ⟨1, 10⟩
      ⟨some "New", none, none⟩ (by decide) (by decide) (by decide)).2.1,
   (task_ownership_isolation [⟨"t1", "Title", none, TaskStatus.PENDING, "u2", 5⟩]
      ⟨"t1", "Title", none, TaskStatus.PENDING, "u2", 5⟩ "u1" ⟨1, 10⟩
      ⟨some "New", none, none⟩ (by decide) (by decide) (by decide)).2.2.1⟩

/-- C10: validated pagination parameters satisfy page ≥ 1 and
1 ≤ limit ≤ 100, with page defaulting to 1 and limit to 10 when absent;
a query with page < 1, limit < 1 or limit > 100 is rejected with a
VALIDATION_ERROR (400). -/
theorem validatePagination_spec (q : PaginationQuery) :
    (∀ p, validatePagination q = .ok p →
      1 ≤ p.page ∧ 1 ≤ p.limit ∧ p.limit ≤ 100) ∧
    (q.page = none → ∀ p, validatePagination q = .ok p → p.page = 1) ∧
    (q.limit = none → ∀ p, validatePagination q = .ok p → p.limit = 10) ∧
    (∀ pv, q.page = some pv → pv < 1 →
      ∃ e, validatePagination q = .error e ∧
        e.code = "VALIDATION_ERROR" ∧ e.statusCode = 400) ∧
    (∀ lv, q.limit = some lv → (lv < 1 ∨ 100 < lv) →
      ∃ e, validatePagination q = .error e ∧
        e.code = "VALIDATION_ERROR" ∧ e.statusCode = 400) := by
  obtain ⟨qp, ql⟩ := q
  rcases qp with _ | pv <;> rcases ql with _ | lv
  · refine ⟨?_, ?_, ?_, ?_, ?_⟩
    · intro p hp
      rw [show validatePagination ⟨none, none⟩ = .ok ⟨1, 10⟩ from rfl] at hp
      obtain rfl := Except.ok.inj hp
      exact ⟨by norm_num, by norm_num, by norm_num⟩
    · intro _ p hp
      rw [show validatePagination ⟨none, none⟩ = .ok ⟨1, 10⟩ from rfl] at hp
      obtain rfl := Except.ok.inj hp
      rfl
    · intro _ p hp
      rw [show validatePagination ⟨none, none⟩ = .ok ⟨1, 10⟩ from rfl] at hp
      obtain rfl := Except.ok.inj hp
      rfl
    · intro pv hpv
      exact absurd hpv (by simp)
    · intro lv hlv
      exact absurd hlv (by simp)
  · by_cases hl : lv < 1 ∨ 100 < lv
    · refine ⟨?_, ?_, ?_, ?_, ?_⟩
      · intro p hp
        simp [validatePagination, hl] at hp
      · intro _ p hp
        simp [validatePagination, hl] at hp
      · intro h
        exact absurd h (by simp)
      · intro pv hpv
        exact absurd hpv (by simp)
      · intro lv' hlv' _
        obtain rfl := Option.some.inj hlv'
        exact ⟨⟨400, "VALIDATION_ERROR", "Validation failed", ["limit"]⟩,
          by simp [validatePagination, hl], rfl, rfl⟩
    · refine ⟨?_, ?_, ?_, ?_, ?_⟩
      · intro p hp
        simp [validatePagination, hl] at hp
        obtain ⟨rfl, rfl⟩ := hp
        refine ⟨by norm_num, ?_, ?_⟩ <;> simp <;> omega
      · intro _ p hp
        simp [validatePagination, hl] at hp
        obtain ⟨rfl, rfl⟩ := hp
        rfl
      · intro h
        exact absurd h (by simp)
      · intro pv hpv
        exact absurd hpv (by simp)
      · intro lv' hlv' hbad
        obtain rfl := Option.some.inj hlv'
        exact absurd hbad hl
  · by_cases hp1 : pv < 1
    · refine ⟨?_, ?_, ?_, ?_, ?_⟩
      · intro p hp
        simp [validatePagination, hp1] at hp
      · intro h
        exact absurd h (by simp)
      · intro _ p hp
        simp [validatePagination, hp1] at hp
      · intro pv' hpv' _
        obtain rfl := Option.some.inj hpv'
        exact ⟨⟨400, "VALIDATION_ERROR", "Validation failed", ["page"]⟩,
          by simp [validatePagination, hp1], rfl, rfl⟩
      · intro lv hlv
        exact absurd hlv (by simp)
    · refine ⟨?_, ?_, ?_, ?_, ?_⟩
      · intro p hp
        simp [validatePagination, hp1] at hp
        obtain ⟨rfl, rfl⟩ := hp
        refine ⟨?_, by norm_num, by norm_num⟩
        simp
        omega
      · intro h
        exact absurd h (by simp)
      · intro _ p hp
        simp [validatePagination, hp1] at hp
        obtain ⟨rfl, rfl⟩ := hp
        rfl
      · intro pv' hpv' hbad
        obtain rfl := Option.some.inj hpv'
        exact absurd hbad hp1
      · intro lv hlv
        exact absurd hlv (by simp)
  · by_cases hp1 : pv < 1 <;> by_cases hl : lv < 1 ∨ 100 < lv
    · refine ⟨?_, ?_, ?_, ?_, ?_⟩
      · intro p hp
        simp [validatePagination, hp1, hl] at hp
      · intro h
        exact absurd h (by simp)
      · intro h
        exact absurd h (by simp)
      · intro pv' hpv' _
        obtain rfl := Option.some.inj hpv'
        exact ⟨⟨400, "VALIDATION_ERROR", "Validation failed", ["page", "limit"]⟩,
          by simp [validatePagination, hp1, hl], rfl, rfl⟩
      · intro lv' hlv' _
        obtain rfl := Option.some.inj hlv'
        exact ⟨⟨400, "VALIDATION_ERROR", "Validation failed", ["page", "limit"]⟩,
          by simp [validatePagination, hp1, hl], rfl, rfl⟩
    · refine ⟨?_, ?_, ?_, ?_, ?_⟩
      · intro p hp
        simp [validatePagination, hp1, hl] at hp
      · intro h
        exact absurd h (by simp)
      · intro h
        exact absurd h (by simp)
      · intro pv' hpv' _
        obtain rfl := Option.some.inj hpv'
        exact ⟨⟨400, "VALIDATION_ERROR", "Validation failed", ["page"]⟩,
          by simp [validatePagination, hp1, hl], rfl, rfl⟩
      · intro lv' hlv' hbad
        obtain rfl := Option.some.inj hlv'
        exact absurd hbad hl
    · refine ⟨?_, ?_, ?_, ?_, ?_⟩
      · intro p hp
        simp [validatePagination, hp1, hl] at hp
      · intro h
        exact absurd h (by simp)
      · intro h
        exact absurd h (by simp)
      · intro pv' hpv' hbad
        obtain rfl := Option.some.inj hpv'
        exact absurd hbad hp1
      · intro lv' hlv' _
        obtain rfl := Option.some.inj hlv'
        exact ⟨⟨400, "VALIDATION_ERROR", "Validation failed", ["limit"]⟩,
          by simp [validatePagination, hp1, hl], rfl, rfl⟩
    · refine ⟨?_, ?_, ?_, ?_, ?_⟩
      · intro p hp
        simp [validatePagination, hp1, hl] at hp
        obtain ⟨rfl, rfl⟩ := hp
        refine ⟨?_, ?_, ?_⟩ <;> simp <;> omega
      · intro h
        exact absurd h (by simp)
      · intro h
        exact absurd h (by simp)
      · intro pv' hpv' hbad
        obtain rfl := Option.some.inj hpv'
        exact absurd hbad hp1
      · intro lv' hlv' hbad
        obtain rfl := Option.some.inj hlv'
        exact absurd hbad hl

/-- C10 witness: the empty query defaults to page 1 and limit 10, and a
query with page 0 and limit 101 is rejected with VALIDATION_ERROR. -/
theorem validatePagination_spec_witness :
    (∀ p, validatePagination ⟨none, none⟩ = .ok p →
      1 ≤ p.page ∧ 1 ≤ p.limit ∧ p.limit ≤ 100) ∧
    ((0 : Int) < 1 ∧ (100 : Int) < 101) ∧
    (∃ e, validatePagination ⟨some 0, some 5⟩ = .error e ∧
      e.code = "VALIDATION_ERROR" ∧ e.statusCode = 400) ∧
    (∃ e, validatePagination ⟨some 2, some 101⟩ = .error e ∧
      e.code = "VALIDATION_ERROR" ∧ e.statusCode = 400) :=
  ⟨(validatePagination_spec ⟨none, none⟩).1,
   ⟨by norm_num, by norm_num⟩,
   (validatePagination_spec ⟨some 0, some 5⟩).2.2.2.1 0 rfl (by norm_num),
   (validatePagination_spec ⟨some 2, some 101⟩).2.2.2.2 101 rfl
     (Or.inr (by norm_num))⟩

end TaskApi
